import Mathlib

/-!
# Broadcom VideoCore display driver (`system/udev/bcm-display/bcm-display.c`)

A shallow embedding of the framebuffer negotiation performed by
`bcm_vc_get_framebuffer`, of the attach routine `bcm_display_bind`, and of the
four display-protocol operations `vc_set_mode`, `vc_get_mode`,
`vc_get_framebuffer` and `vc_flush_framebuffer`.

Modelling conventions.

* The three file-scope variables (`disp_info`, `bcm_vc_framebuffer`,
  `vc_framebuffer`) form the record `State`, threaded explicitly.  Virtual
  memory reachable through `vc_framebuffer` is the byte map `State.mem`.
* Every call that leaves the driver (allocator, transport, mapping syscall,
  device manager) is answered by a field of `Env`, and is recorded, in program
  order, in a list of `Event`s.
* `uint32_t` values are natural numbers; the descriptor travels through the
  transaction buffer as 40 little-endian bytes, so that values read back are
  reduced modulo `2^32` by construction.  Physical addresses (`mx_paddr_t`)
  wrap at `2^64`.
* `MX_DEBUG_ASSERT(txn->phys_count == 1)` is a debug-build check on the
  allocator and is not part of the model.
-/

namespace BcmDisplay

/-! ## Status codes and constants -/

/-- Modelled from the spec: `magenta/errors.h` is not among the sources; this is
the status that "distinguishes success from rejection", zero in Magenta. -/
def NO_ERROR : Int := 0

/-- Modelled from the spec: `magenta/errors.h` is not among the sources; the
status `bcm_display_bind` returns when the parent lacks the bus protocol is a
failure, distinct from `NO_ERROR`; the number is the one Magenta assigns. -/
def ERR_NOT_SUPPORTED : Int := -2

/-- Modelled from the spec: `magenta/errors.h` is not among the sources; the
status `bcm_display_bind` returns when `calloc` fails is a failure, distinct
from `NO_ERROR`; the number is the one Magenta assigns. -/
def ERR_NO_MEMORY : Int := -4

/-- Modelled from the spec: `magenta/pixelformat.h` is not among the sources;
the format `ARGB_8888` the driver stores into `disp_info.format`; the number is
the one Magenta assigns and no statement below depends on it. -/
def MX_PIXEL_FORMAT_ARGB_8888 : Nat := 4

/-- The C expression `sizeof(bcm_fb_desc_t)`: ten `uint32_t` fields. -/
def sizeof_bcm_fb_desc_t : Nat := 40

/-- The local constant `txnsize` of `bcm_vc_get_framebuffer`. -/
def txnsize : Nat := sizeof_bcm_fb_desc_t + 16

/-! ## Data model -/

/-- The C struct `bcm_fb_desc_t`, fields in declaration order. -/
structure bcm_fb_desc_t where
  phys_width : Nat
  phys_height : Nat
  virt_width : Nat
  virt_height : Nat
  pitch : Nat
  depth : Nat
  virt_x_offs : Nat
  virt_y_offs : Nat
  fb_p : Nat
  fb_size : Nat
deriving DecidableEq, Repr

/-- Modelled from the spec: the type `mx_display_info_t` is declared in
`ddk/protocol/display.h`, which is not among the sources; the record keeps the
four members the spec lists for the display mode descriptor, which are the four
the driver assigns. -/
structure mx_display_info_t where
  format : Nat
  width : Nat
  height : Nat
  stride : Nat
deriving DecidableEq, Repr

/-- All ten members fit a `uint32_t`. -/
def bcm_fb_desc_t.WF (d : bcm_fb_desc_t) : Prop :=
  d.phys_width < 2 ^ 32 ∧ d.phys_height < 2 ^ 32 ∧ d.virt_width < 2 ^ 32 ∧
  d.virt_height < 2 ^ 32 ∧ d.pitch < 2 ^ 32 ∧ d.depth < 2 ^ 32 ∧
  d.virt_x_offs < 2 ^ 32 ∧ d.virt_y_offs < 2 ^ 32 ∧ d.fb_p < 2 ^ 32 ∧
  d.fb_size < 2 ^ 32

instance (d : bcm_fb_desc_t) : Decidable d.WF := by
  unfold bcm_fb_desc_t.WF; infer_instance

/-- The file-scope variables of the driver together with the virtual memory
they point into.  `vc_framebuffer = 0` is the C `NULL`. -/
structure State where
  disp_info : mx_display_info_t
  bcm_vc_framebuffer : bcm_fb_desc_t
  vc_framebuffer : Nat
  mem : Nat → Nat

/-- Selector of `iotxn_cacheop`: `IOTXN_CACHE_CLEAN` or `IOTXN_CACHE_INVALIDATE`. -/
inductive CacheOp where
  | CLEAN
  | INVALIDATE
deriving DecidableEq, Repr

/-- Cache policies of `mx_mmap_device_memory`, kept symbolic; the driver passes
`MX_CACHE_POLICY_CACHED`. -/
inductive mx_cache_policy_t where
  | CACHED
  | UNCACHED
  | UNCACHED_DEVICE
  | WRITE_COMBINING
deriving DecidableEq, Repr

/-- Flag argument of `mx_cache_flush`, kept symbolic; the driver passes
`MX_CACHE_FLUSH_DATA`. -/
inductive mx_cache_flush_t where
  | DATA
  | INSN
deriving DecidableEq, Repr

/-- One externally visible call made by the driver, with its arguments. -/
inductive Event where
  | iotxn_alloc (size : Nat)
  | iotxn_physmap
  | iotxn_copyto (data : bcm_fb_desc_t) (length offset : Nat)
  | iotxn_cacheop (op : CacheOp) (offset length : Nat)
  | set_framebuffer (addr : Nat) (buffer : List Nat)
  | iotxn_copyfrom (length offset : Nat)
  | mx_mmap_device_memory (paddr len : Nat) (policy : mx_cache_policy_t)
  | memset (ptr val len : Nat)
  | iotxn_release
  | mx_cache_flush (ptr len : Nat) (flags : mx_cache_flush_t)
  | calloc
  | free
  | device_op_get_protocol
  | mx_set_framebuffer (ptr len format width height stride : Nat)
  | device_add
deriving DecidableEq, Repr

/-- Answers of the platform and of the bus transport to the calls of one
attachment.

* `iotxn_alloc size` is the status of the allocation;
* `iotxn_phys` is the physical address of the allocated buffer and `txn_init`
  its content before the driver writes to it;
* `set_framebuffer addr buffer` is the transport: it sees the transaction
  buffer as it stands at the call and yields a status and the buffer as the
  co-processor left it;
* `mx_mmap_device_memory paddr len` yields a status and, when the syscall
  stores through its out-pointer, the stored address;
* `uninit_page_base` is the indeterminate value of the local `page_base`,
  which the driver reads when the syscall stored nothing;
* `calloc_ok`, `device_op_get_protocol`, `device_add` answer the three calls of
  `bcm_display_bind`. -/
structure Env where
  iotxn_alloc : Nat → Int
  iotxn_phys : Nat
  txn_init : Nat → Nat
  set_framebuffer : Nat → List Nat → Int × List Nat
  mx_mmap_device_memory : Nat → Nat → Int × Option Nat
  uninit_page_base : Nat
  calloc_ok : Bool
  device_op_get_protocol : Int
  device_add : Int

/-- What a call of `bcm_vc_get_framebuffer` leaves behind: the returned status,
the content of `*fb_desc`, the driver state, and the calls it made. -/
structure Outcome where
  ret : Int
  fb_desc : bcm_fb_desc_t
  state : State
  trace : List Event

/-! ## Byte-level view of the descriptor -/

/-- Little-endian bytes of a `uint32_t`. -/
def le32 (x : Nat) : List Nat :=
  [x % 256, x / 256 % 256, x / 65536 % 256, x / 16777216 % 256]

/-- The `uint32_t` stored little-endian at index `i` of a byte buffer. -/
def rd32 (b : List Nat) (i : Nat) : Nat :=
  b.getD i 0 % 256 + 256 * (b.getD (i + 1) 0 % 256) +
    65536 * (b.getD (i + 2) 0 % 256) + 16777216 * (b.getD (i + 3) 0 % 256)

/-- Memory image of a `bcm_fb_desc_t` (40 bytes). -/
def desc_bytes (d : bcm_fb_desc_t) : List Nat :=
  le32 d.phys_width ++ le32 d.phys_height ++ le32 d.virt_width ++
  le32 d.virt_height ++ le32 d.pitch ++ le32 d.depth ++ le32 d.virt_x_offs ++
  le32 d.virt_y_offs ++ le32 d.fb_p ++ le32 d.fb_size

/-- The `bcm_fb_desc_t` whose memory image starts a byte buffer. -/
def desc_of_bytes (b : List Nat) : bcm_fb_desc_t :=
  { phys_width := rd32 b 0, phys_height := rd32 b 4, virt_width := rd32 b 8,
    virt_height := rd32 b 12, pitch := rd32 b 16, depth := rd32 b 20,
    virt_x_offs := rd32 b 24, virt_y_offs := rd32 b 28, fb_p := rd32 b 32,
    fb_size := rd32 b 36 }

/-- Effect of `iotxn_copyto(txn, data, length, offset)` on the transaction
buffer: `length` bytes of `data` replace those at `offset`. -/
def iotxn_copyto (buffer data : List Nat) (length offset : Nat) : List Nat :=
  buffer.take offset ++ data.take length ++ buffer.drop (offset + length)

/-- Bytes delivered by `iotxn_copyfrom(txn, data, length, offset)`. -/
def iotxn_copyfrom (buffer : List Nat) (length offset : Nat) : List Nat :=
  (buffer.drop offset).take length

/-- Effect of `memset(ptr, val, len)` on virtual memory. -/
def memset (mem : Nat → Nat) (ptr val len : Nat) : Nat → Nat :=
  fun a => if ptr ≤ a ∧ a < ptr + len then val else mem a

/-! ## The driver -/

/-- The expression `(16 - (phys % 16)) % 16` of `bcm_vc_get_framebuffer`. -/
def align_offset (phys : Nat) : Nat := (16 - (phys % 16)) % 16

/-- The argument `phys + offset` of the transport call, in `mx_paddr_t`
arithmetic. -/
def desc_paddr (phys : Nat) : Nat := (phys + align_offset phys) % 2 ^ 64

/-- The function `vc_set_mode`: returns `NO_ERROR`, touches nothing. -/
def vc_set_mode (s : State) (_info : mx_display_info_t) : Int × State :=
  (NO_ERROR, s)

/-- The function `vc_get_mode`.  The argument is the content of `*info` before
the call, `none` standing for a null pointer, on which `assert(info)` aborts. -/
def vc_get_mode (s : State) (info : Option mx_display_info_t) :
    Option (Int × mx_display_info_t) :=
  match info with
  | none => none
  | some _ => some (NO_ERROR, s.disp_info)

/-- The function `vc_get_framebuffer`.  The argument is the content of
`*framebuffer` before the call, `none` standing for a null pointer, on which
`assert(framebuffer)` aborts. -/
def vc_get_framebuffer (s : State) (framebuffer : Option Nat) :
    Option (Int × Nat) :=
  match framebuffer with
  | none => none
  | some _ => some (NO_ERROR, s.vc_framebuffer)

/-- The function `vc_flush_framebuffer`: the state it leaves and the calls it
makes. -/
def vc_flush_framebuffer (s : State) : State × List Event :=
  (s, [Event.mx_cache_flush s.vc_framebuffer s.bcm_vc_framebuffer.fb_size
        mx_cache_flush_t.DATA])

/-- The function `bcm_vc_get_framebuffer`. -/
def bcm_vc_get_framebuffer (env : Env) (s : State) (fb_desc : bcm_fb_desc_t) :
    Outcome :=
  if s.vc_framebuffer = 0 then
    let ret := env.iotxn_alloc txnsize
    if ret < 0 then
      ⟨ret, fb_desc, s, [Event.iotxn_alloc txnsize]⟩
    else
      let phys := env.iotxn_phys
      let offset := align_offset phys
      let buf0 := (List.range txnsize).map env.txn_init
      let buf1 := iotxn_copyto buf0 (desc_bytes fb_desc) sizeof_bcm_fb_desc_t offset
      let pre := [Event.iotxn_alloc txnsize, Event.iotxn_physmap,
        Event.iotxn_copyto fb_desc sizeof_bcm_fb_desc_t offset,
        Event.iotxn_cacheop CacheOp.CLEAN 0 txnsize,
        Event.set_framebuffer (desc_paddr phys) buf1]
      let r := env.set_framebuffer (desc_paddr phys) buf1
      if r.1 ≠ NO_ERROR then
        ⟨r.1, fb_desc, s, pre⟩
      else
        let resp := desc_of_bytes (iotxn_copyfrom r.2 sizeof_bcm_fb_desc_t offset)
        let m := env.mx_mmap_device_memory (resp.fb_p &&& 0x3fffffff) resp.fb_size
        let page_base := m.2.getD env.uninit_page_base
        ⟨sizeof_bcm_fb_desc_t, resp,
          { disp_info := s.disp_info, bcm_vc_framebuffer := resp,
            vc_framebuffer := page_base,
            mem := memset s.mem page_base 0 resp.fb_size },
          pre ++ [Event.iotxn_cacheop CacheOp.INVALIDATE 0 txnsize,
            Event.iotxn_copyfrom sizeof_bcm_fb_desc_t offset,
            Event.mx_mmap_device_memory (resp.fb_p &&& 0x3fffffff) resp.fb_size
              mx_cache_policy_t.CACHED,
            Event.memset page_base 0 resp.fb_size,
            Event.iotxn_release]⟩
  else
    ⟨sizeof_bcm_fb_desc_t, s.bcm_vc_framebuffer, s, []⟩

/-- The local `framebuff_descriptor` of `bcm_display_bind` once its ten members
are assigned. -/
def bind_descriptor : bcm_fb_desc_t :=
  { phys_width := 800, phys_height := 480, virt_width := 800, virt_height := 480,
    pitch := 0, depth := 32, virt_x_offs := 0, virt_y_offs := 0, fb_p := 0,
    fb_size := 0 }

/-- The function `bcm_display_bind`: returned status, final state, calls made. -/
def bcm_display_bind (env : Env) (s : State) : Int × State × List Event :=
  if !env.calloc_ok then
    (ERR_NO_MEMORY, s, [Event.calloc])
  else if env.device_op_get_protocol ≠ 0 then
    (ERR_NOT_SUPPORTED, s, [Event.calloc, Event.device_op_get_protocol, Event.free])
  else
    let o := bcm_vc_get_framebuffer env s bind_descriptor
    let s1 : State :=
      { disp_info := { format := MX_PIXEL_FORMAT_ARGB_8888, width := 800,
                       height := 480, stride := 800 },
        bcm_vc_framebuffer := o.state.bcm_vc_framebuffer,
        vc_framebuffer := o.state.vc_framebuffer,
        mem := o.state.mem }
    let status := env.device_add
    (status, s1,
      [Event.calloc, Event.device_op_get_protocol] ++ o.trace ++
      [Event.mx_set_framebuffer s1.vc_framebuffer s1.bcm_vc_framebuffer.fb_size
         s1.disp_info.format s1.disp_info.width s1.disp_info.height
         s1.disp_info.stride,
       Event.device_add] ++
      (if status ≠ NO_ERROR then [Event.free] else []))

/-- Number of transport calls in a trace. -/
def count_set_framebuffer (t : List Event) : Nat :=
  (t.filter (fun e => match e with
    | Event.set_framebuffer _ _ => true
    | _ => false)).length

/-- State of a freshly loaded driver: zero-initialised statics. -/
def init_state : State :=
  { disp_info := { format := 0, width := 0, height := 0, stride := 0 },
    bcm_vc_framebuffer :=
      { phys_width := 0, phys_height := 0, virt_width := 0, virt_height := 0,
        pitch := 0, depth := 0, virt_x_offs := 0, virt_y_offs := 0, fb_p := 0,
        fb_size := 0 },
    vc_framebuffer := 0,
    mem := fun _ => 0 }

/-! ## Names for the intermediate values of a first acquisition -/

/-- Transaction buffer as handed to the transport: the allocator's initial
content with the request copied in at the alignment offset. -/
def request_buffer (env : Env) (d : bcm_fb_desc_t) : List Nat :=
  iotxn_copyto ((List.range txnsize).map env.txn_init) (desc_bytes d)
    sizeof_bcm_fb_desc_t (align_offset env.iotxn_phys)

/-- Answer of the transport to the request of a first acquisition. -/
def transport_result (env : Env) (d : bcm_fb_desc_t) : Int × List Nat :=
  env.set_framebuffer (desc_paddr env.iotxn_phys) (request_buffer env d)

/-- Descriptor copied back out of the transaction buffer after the exchange. -/
def response (env : Env) (d : bcm_fb_desc_t) : bcm_fb_desc_t :=
  desc_of_bytes (iotxn_copyfrom (transport_result env d).2 sizeof_bcm_fb_desc_t
    (align_offset env.iotxn_phys))

/-- Answer of the mapping syscall to the request derived from the response. -/
def mapping (env : Env) (d : bcm_fb_desc_t) : Int × Option Nat :=
  env.mx_mmap_device_memory ((response env d).fb_p &&& 0x3fffffff)
    (response env d).fb_size

/-- The allocation succeeds and the transport answers `NO_ERROR`. -/
def exchange_ok (env : Env) (d : bcm_fb_desc_t) : Prop :=
  0 ≤ env.iotxn_alloc txnsize ∧ (transport_result env d).1 = NO_ERROR

instance (env : Env) (d : bcm_fb_desc_t) : Decidable (exchange_ok env d) := by
  unfold exchange_ok; infer_instance

/-- Value of the local `page_base` after the mapping syscall: the address it
stored, or the indeterminate initial value when it stored nothing. -/
def page_base (env : Env) (d : bcm_fb_desc_t) : Nat :=
  (mapping env d).2.getD env.uninit_page_base

/-- The calls of a first acquisition up to and including the transport call. -/
def exchange_calls (env : Env) (d : bcm_fb_desc_t) : List Event :=
  [Event.iotxn_alloc txnsize, Event.iotxn_physmap,
   Event.iotxn_copyto d sizeof_bcm_fb_desc_t (align_offset env.iotxn_phys),
   Event.iotxn_cacheop CacheOp.CLEAN 0 txnsize,
   Event.set_framebuffer (desc_paddr env.iotxn_phys) (request_buffer env d)]

/-! ## Concrete environments -/

/-- The response of the scenario: pitch 3200, base `0x3E000000`, size 1536000. -/
def rpi_response : bcm_fb_desc_t :=
  { phys_width := 800, phys_height := 480, virt_width := 800, virt_height := 480,
    pitch := 3200, depth := 32, virt_x_offs := 0, virt_y_offs := 0,
    fb_p := 0x3E000000, fb_size := 1536000 }

/-- An environment in which everything succeeds: the buffer lies at physical
`0x1003`, the co-processor writes `rpi_response` where it was pointed to, and the
mapping lands at `0x7000`. -/
def rpi_env : Env :=
  { iotxn_alloc := fun _ => 0,
    iotxn_phys := 0x1003,
    txn_init := fun _ => 0xAA,
    set_framebuffer := fun addr b =>
      (NO_ERROR, iotxn_copyto b (desc_bytes rpi_response) 40 (addr - 0x1003)),
    mx_mmap_device_memory := fun _ _ => (NO_ERROR, some 0x7000),
    uninit_page_base := 0,
    calloc_ok := true,
    device_op_get_protocol := 0,
    device_add := NO_ERROR }

/-- As `rpi_env`, but `iotxn_alloc` fails with `ERR_NO_MEMORY`. -/
def env_alloc_fails : Env :=
  { rpi_env with iotxn_alloc := fun _ => ERR_NO_MEMORY }

/-- As `rpi_env`, but the transport rejects the request with
`ERR_NOT_SUPPORTED` and leaves the buffer alone. -/
def env_transport_fails : Env :=
  { rpi_env with set_framebuffer := fun _ b => (ERR_NOT_SUPPORTED, b) }

/-- As `rpi_env`, but the mapping syscall fails with `ERR_NO_MEMORY` and stores
nothing; the local `page_base` then holds `0xdead0000`. -/
def env_map_fails : Env :=
  { rpi_env with
    mx_mmap_device_memory := fun _ _ => (ERR_NO_MEMORY, none),
    uninit_page_base := 0xdead0000 }

/-! ## Auxiliary facts -/

theorem align_offset_lt (p : Nat) : align_offset p < 16 := by
  unfold align_offset; omega

theorem align_offset_aligned (p : Nat) : (p + align_offset p) % 16 = 0 := by
  unfold align_offset; omega

theorem desc_paddr_aligned (p : Nat) : desc_paddr p % 16 = 0 := by
  unfold desc_paddr align_offset; omega

theorem land_alias_mask (x : Nat) : x &&& 0x3fffffff = x % 2 ^ 30 := by
  have h := Nat.and_pow_two_sub_one_eq_mod x 30
  simpa using h

theorem desc_bytes_length (d : bcm_fb_desc_t) :
    (desc_bytes d).length = sizeof_bcm_fb_desc_t := by
  simp [desc_bytes, le32, sizeof_bcm_fb_desc_t]

theorem desc_of_bytes_desc_bytes (d : bcm_fb_desc_t) (h : d.WF) :
    desc_of_bytes (desc_bytes d) = d := by
  obtain ⟨h0, h1, h2, h3, h4, h5, h6, h7, h8, h9⟩ := h
  cases d
  simp only [desc_of_bytes, desc_bytes, le32, rd32, List.cons_append, List.nil_append,
    List.getD_cons_succ, List.getD_cons_zero, bcm_fb_desc_t.mk.injEq] at *
  refine ⟨?_, ?_, ?_, ?_, ?_, ?_, ?_, ?_, ?_, ?_⟩ <;> omega

theorem copyfrom_copyto (buffer data : List Nat) (n off : Nat)
    (hd : data.length = n) (ho : off ≤ buffer.length) :
    iotxn_copyfrom (iotxn_copyto buffer data n off) n off = data := by
  unfold iotxn_copyfrom iotxn_copyto
  have h1 : (buffer.take off).length = off := by simp [ho]
  rw [List.append_assoc, List.drop_append_eq_append_drop, h1]
  simp [List.drop_eq_nil_of_le, h1, ← hd]

theorem request_buffer_length (env : Env) (d : bcm_fb_desc_t) :
    (request_buffer env d).length = txnsize := by
  have h := align_offset_lt env.iotxn_phys
  simp only [request_buffer, iotxn_copyto, List.length_append, List.length_take,
    List.length_drop, List.length_map, List.length_range, desc_bytes_length,
    txnsize, sizeof_bcm_fb_desc_t]
  omega

theorem request_buffer_holds (env : Env) (d : bcm_fb_desc_t) :
    iotxn_copyfrom (request_buffer env d) sizeof_bcm_fb_desc_t
      (align_offset env.iotxn_phys) = desc_bytes d := by
  have h := align_offset_lt env.iotxn_phys
  apply copyfrom_copyto _ _ _ _ (desc_bytes_length d)
  simp only [List.length_map, List.length_range, txnsize, sizeof_bcm_fb_desc_t]
  omega

/-! ## The four paths through `bcm_vc_get_framebuffer` -/

theorem get_framebuffer_cached (env : Env) (s : State) (d : bcm_fb_desc_t)
    (h : s.vc_framebuffer ≠ 0) :
    bcm_vc_get_framebuffer env s d =
      ⟨sizeof_bcm_fb_desc_t, s.bcm_vc_framebuffer, s, []⟩ := by
  simp [bcm_vc_get_framebuffer, h]

theorem get_framebuffer_alloc_failed (env : Env) (s : State) (d : bcm_fb_desc_t)
    (h : s.vc_framebuffer = 0) (ha : env.iotxn_alloc txnsize < 0) :
    bcm_vc_get_framebuffer env s d =
      ⟨env.iotxn_alloc txnsize, d, s, [Event.iotxn_alloc txnsize]⟩ := by
  simp [bcm_vc_get_framebuffer, h, ha]

theorem get_framebuffer_transport_failed (env : Env) (s : State) (d : bcm_fb_desc_t)
    (h : s.vc_framebuffer = 0) (ha : 0 ≤ env.iotxn_alloc txnsize)
    (ht : (transport_result env d).1 ≠ NO_ERROR) :
    bcm_vc_get_framebuffer env s d =
      ⟨(transport_result env d).1, d, s, exchange_calls env d⟩ := by
  have ha2 : ¬ env.iotxn_alloc txnsize < 0 := not_lt.mpr ha
  have ht2 : ¬ (env.set_framebuffer (desc_paddr env.iotxn_phys)
      (iotxn_copyto ((List.range txnsize).map env.txn_init) (desc_bytes d)
        sizeof_bcm_fb_desc_t (align_offset env.iotxn_phys))).1 = NO_ERROR := ht
  simp only [bcm_vc_get_framebuffer, h, ha2, ht2, if_true, if_false, ne_eq,
    not_false_eq_true]
  rfl

theorem get_framebuffer_success (env : Env) (s : State) (d : bcm_fb_desc_t)
    (h : s.vc_framebuffer = 0) (hx : exchange_ok env d) :
    bcm_vc_get_framebuffer env s d =
      ⟨sizeof_bcm_fb_desc_t, response env d,
        { disp_info := s.disp_info, bcm_vc_framebuffer := response env d,
          vc_framebuffer := page_base env d,
          mem := memset s.mem (page_base env d) 0 (response env d).fb_size },
        exchange_calls env d ++
          [Event.iotxn_cacheop CacheOp.INVALIDATE 0 txnsize,
           Event.iotxn_copyfrom sizeof_bcm_fb_desc_t (align_offset env.iotxn_phys),
           Event.mx_mmap_device_memory ((response env d).fb_p &&& 0x3fffffff)
             (response env d).fb_size mx_cache_policy_t.CACHED,
           Event.memset (page_base env d) 0 (response env d).fb_size,
           Event.iotxn_release]⟩ := by
  obtain ⟨ha, ht⟩ := hx
  have ha2 : ¬ env.iotxn_alloc txnsize < 0 := not_lt.mpr ha
  have ht2 : (env.set_framebuffer (desc_paddr env.iotxn_phys)
      (iotxn_copyto ((List.range txnsize).map env.txn_init) (desc_bytes d)
        sizeof_bcm_fb_desc_t (align_offset env.iotxn_phys))).1 = NO_ERROR := ht
  simp only [bcm_vc_get_framebuffer, h, ha2, ht2, if_true, if_false, ne_eq,
    not_true_eq_false]
  rfl

theorem transport_calls_of_trace (env : Env) (s : State) (d : bcm_fb_desc_t)
    (a : Nat) (b : List Nat)
    (h : Event.set_framebuffer a b ∈ (bcm_vc_get_framebuffer env s d).trace) :
    a = desc_paddr env.iotxn_phys ∧ b = request_buffer env d := by
  by_cases h0 : s.vc_framebuffer = 0
  · by_cases ha : env.iotxn_alloc txnsize < 0
    · rw [get_framebuffer_alloc_failed env s d h0 ha] at h
      simp at h
    · have ha2 : 0 ≤ env.iotxn_alloc txnsize := not_lt.mp ha
      by_cases ht : (transport_result env d).1 = NO_ERROR
      · rw [get_framebuffer_success env s d h0 ⟨ha2, ht⟩] at h
        simpa [exchange_calls] using h
      · rw [get_framebuffer_transport_failed env s d h0 ha2 ht] at h
        simpa [exchange_calls] using h
  · rw [get_framebuffer_cached env s d h0] at h
    simp at h

/-! ## Alignment of the descriptor (C1) -/

/-- C1: for every physical address `p` of the transaction buffer the offset
`(16 - (p % 16)) % 16` is below 16 and makes `p + offset` a multiple of 16; the
descriptor placed there fits the allocation (`offset + 40 ≤ txnsize = 40 + 16`);
and every address the driver hands to the transport is `phys + offset` and is
16-byte aligned. -/
theorem alignment_offset_sound (env : Env) (s : State) (d : bcm_fb_desc_t) (p : Nat) :
    align_offset p = (16 - (p % 16)) % 16 ∧
    align_offset p < 16 ∧
    (p + align_offset p) % 16 = 0 ∧
    align_offset p + sizeof_bcm_fb_desc_t ≤ txnsize ∧
    sizeof_bcm_fb_desc_t = 40 ∧
    txnsize = sizeof_bcm_fb_desc_t + 16 ∧
    ∀ a b, Event.set_framebuffer a b ∈ (bcm_vc_get_framebuffer env s d).trace →
      a = (env.iotxn_phys + align_offset env.iotxn_phys) % 2 ^ 64 ∧ a % 16 = 0 := by
  refine ⟨rfl, align_offset_lt p, align_offset_aligned p, ?_, rfl, rfl, ?_⟩
  · have h := align_offset_lt p
    simp only [txnsize, sizeof_bcm_fb_desc_t]
    omega
  · intro a b h
    obtain ⟨ha, _⟩ := transport_calls_of_trace env s d a b h
    subst ha
    exact ⟨rfl, desc_paddr_aligned env.iotxn_phys⟩

/-! ## Idempotence of the acquisition (C2) -/

/-- C2: when the first call starts without a mapping and each of its steps
succeeds (allocation, transport answering `NO_ERROR`, mapping syscall answering
`NO_ERROR` with a non-null address `p`), a second call, whatever the platform
would answer and whatever descriptor it is given, returns the same status, the
same descriptor (hence the same size) and leaves the same framebuffer pointer,
changes nothing in the driver state, and the transport is called exactly once
over the two calls. -/
theorem acquire_idempotent (env env2 : Env) (s : State) (d d2 : bcm_fb_desc_t)
    (p x : Nat) (hs : s.vc_framebuffer = 0) (hx : exchange_ok env d)
    (hmap : mapping env d = (NO_ERROR, some p)) (hp : p ≠ 0) :
    (bcm_vc_get_framebuffer env2 (bcm_vc_get_framebuffer env s d).state d2).ret =
      (bcm_vc_get_framebuffer env s d).ret ∧
    (bcm_vc_get_framebuffer env2 (bcm_vc_get_framebuffer env s d).state d2).fb_desc =
      (bcm_vc_get_framebuffer env s d).fb_desc ∧
    (bcm_vc_get_framebuffer env2 (bcm_vc_get_framebuffer env s d).state d2).state =
      (bcm_vc_get_framebuffer env s d).state ∧
    (bcm_vc_get_framebuffer env s d).state.vc_framebuffer = p ∧
    (bcm_vc_get_framebuffer env s d).fb_desc.fb_size = (response env d).fb_size ∧
    vc_get_framebuffer
      (bcm_vc_get_framebuffer env2 (bcm_vc_get_framebuffer env s d).state d2).state
      (some x) = vc_get_framebuffer (bcm_vc_get_framebuffer env s d).state (some x) ∧
    count_set_framebuffer (bcm_vc_get_framebuffer env s d).trace = 1 ∧
    count_set_framebuffer
      (bcm_vc_get_framebuffer env2 (bcm_vc_get_framebuffer env s d).state d2).trace = 0 ∧
    count_set_framebuffer ((bcm_vc_get_framebuffer env s d).trace ++
      (bcm_vc_get_framebuffer env2 (bcm_vc_get_framebuffer env s d).state d2).trace) = 1 := by
  have hpb : page_base env d = p := by simp [page_base, hmap]
  rw [get_framebuffer_success env s d hs hx]
  simp only [hpb]
  rw [get_framebuffer_cached env2 _ d2 (by simpa using hp)]
  simp [count_set_framebuffer, exchange_calls, vc_get_framebuffer]

/-- Witness for C2 on the scenario environment. -/
theorem acquire_idempotent_witness :
    (bcm_vc_get_framebuffer rpi_env init_state bind_descriptor).state.vc_framebuffer
      = 0x7000 ∧
    count_set_framebuffer ((bcm_vc_get_framebuffer rpi_env init_state bind_descriptor).trace ++
      (bcm_vc_get_framebuffer rpi_env
        (bcm_vc_get_framebuffer rpi_env init_state bind_descriptor).state
        bind_descriptor).trace) = 1 :=
  have h := acquire_idempotent rpi_env rpi_env init_state bind_descriptor bind_descriptor
    0x7000 0 rfl (by decide) rfl (by decide)
  ⟨h.2.2.2.1, h.2.2.2.2.2.2.2.2⟩

/-! ## Failure paths (C3, C4, C5) -/

/-- C3, evaluated where the allocation of the transaction buffer fails with
`ERR_NO_MEMORY`: `bcm_vc_get_framebuffer` reports the error and no transport
call is made, no mapping is requested and the cached pointer stays null, but
`bcm_display_bind` discards that status, goes on to publish the device
(`mx_set_framebuffer` with a null pointer and size 0, then `device_add`) and
returns `NO_ERROR`, the status of `device_add`. -/
theorem bind_discards_allocation_failure :
    (bcm_vc_get_framebuffer env_alloc_fails init_state bind_descriptor).ret
      = ERR_NO_MEMORY ∧
    (bcm_display_bind env_alloc_fails init_state).1 = NO_ERROR ∧
    (bcm_display_bind env_alloc_fails init_state).2.2 =
      [Event.calloc, Event.device_op_get_protocol, Event.iotxn_alloc 56,
       Event.mx_set_framebuffer 0 0 MX_PIXEL_FORMAT_ARGB_8888 800 480 800,
       Event.device_add] ∧
    count_set_framebuffer (bcm_display_bind env_alloc_fails init_state).2.2 = 0 ∧
    (bcm_display_bind env_alloc_fails init_state).2.1.vc_framebuffer = 0 := by
  refine ⟨?_, ?_, ?_, ?_, ?_⟩ <;> decide

/-- C4, evaluated where the transport answers `ERR_NOT_SUPPORTED`:
`bcm_vc_get_framebuffer` returns that status after a single transport call,
requests no mapping and leaves the cached pointer null, but it returns without
calling `iotxn_release` on the transaction buffer it allocated; the successful
path of the same function does release it. -/
theorem transport_failure_keeps_buffer :
    (bcm_vc_get_framebuffer env_transport_fails init_state bind_descriptor).ret
      = ERR_NOT_SUPPORTED ∧
    count_set_framebuffer
      (bcm_vc_get_framebuffer env_transport_fails init_state bind_descriptor).trace = 1 ∧
    (bcm_vc_get_framebuffer env_transport_fails init_state bind_descriptor).state.vc_framebuffer
      = 0 ∧
    Event.iotxn_alloc 56 ∈
      (bcm_vc_get_framebuffer env_transport_fails init_state bind_descriptor).trace ∧
    Event.iotxn_release ∉
      (bcm_vc_get_framebuffer env_transport_fails init_state bind_descriptor).trace ∧
    Event.iotxn_release ∈
      (bcm_vc_get_framebuffer rpi_env init_state bind_descriptor).trace := by
  refine ⟨?_, ?_, ?_, ?_, ?_, ?_⟩ <;> decide

/-- C5, evaluated where the mapping syscall fails with `ERR_NO_MEMORY` after a
successful exchange and stores nothing: `bcm_vc_get_framebuffer` still returns
its success value `sizeof(bcm_fb_desc_t)`, publishes the indeterminate content
of `page_base` (here `0xdead0000`) as the framebuffer pointer, and calls
`memset` through it over the 1536000 bytes of the response. -/
theorem mapping_failure_unchecked :
    (mapping env_map_fails bind_descriptor).1 = ERR_NO_MEMORY ∧
    (bcm_vc_get_framebuffer env_map_fails init_state bind_descriptor).ret
      = sizeof_bcm_fb_desc_t ∧
    (bcm_vc_get_framebuffer env_map_fails init_state bind_descriptor).state.vc_framebuffer
      = 0xdead0000 ∧
    Event.memset 0xdead0000 0 1536000 ∈
      (bcm_vc_get_framebuffer env_map_fails init_state bind_descriptor).trace ∧
    vc_get_framebuffer
      (bcm_vc_get_framebuffer env_map_fails init_state bind_descriptor).state (some 0)
      = some (NO_ERROR, 0xdead0000) := by
  refine ⟨?_, ?_, ?_, ?_, ?_⟩ <;> decide

/-! ## The request as the transport sees it (C6) -/

theorem bind_proceeds (env : Env) (s : State) (hc : env.calloc_ok = true)
    (hp : env.device_op_get_protocol = 0) :
    bcm_display_bind env s =
      (env.device_add,
       { disp_info := { format := MX_PIXEL_FORMAT_ARGB_8888, width := 800,
                        height := 480, stride := 800 },
         bcm_vc_framebuffer :=
           (bcm_vc_get_framebuffer env s bind_descriptor).state.bcm_vc_framebuffer,
         vc_framebuffer :=
           (bcm_vc_get_framebuffer env s bind_descriptor).state.vc_framebuffer,
         mem := (bcm_vc_get_framebuffer env s bind_descriptor).state.mem },
       [Event.calloc, Event.device_op_get_protocol] ++
         (bcm_vc_get_framebuffer env s bind_descriptor).trace ++
         [Event.mx_set_framebuffer
            (bcm_vc_get_framebuffer env s bind_descriptor).state.vc_framebuffer
            (bcm_vc_get_framebuffer env s bind_descriptor).state.bcm_vc_framebuffer.fb_size
            MX_PIXEL_FORMAT_ARGB_8888 800 480 800,
          Event.device_add] ++
         (if env.device_add ≠ NO_ERROR then [Event.free] else [])) := by
  simp [bcm_display_bind, hc, hp]

theorem bind_trace (env : Env) (s : State) (hc : env.calloc_ok = true)
    (hp : env.device_op_get_protocol = 0) :
    ∃ rest, (bcm_display_bind env s).2.2 =
      [Event.calloc, Event.device_op_get_protocol] ++
        (bcm_vc_get_framebuffer env s bind_descriptor).trace ++ rest := by
  rw [bind_proceeds env s hc hp]
  exact ⟨_, List.append_assoc _ _ _⟩

theorem bind_descriptor_WF : bind_descriptor.WF := by decide

/-- C6: on a first acquisition whose allocation succeeds, for every request `d`
with `uint32_t` members and zero `pitch`, `fb_p` and `fb_size` (no restriction
on the depth is needed), the transport is called once, with the address
`phys + offset` and the transaction buffer in which the 40 bytes at the
alignment offset are the memory image of `d`: they decode to the requested
physical and virtual width and height, depth and pan offsets, and to zero
pitch, base and size.  For `bcm_display_bind`, once `calloc` and the protocol
lookup succeed, the descriptor so sent is
`{800, 480, 800, 480, 0, 32, 0, 0, 0, 0}`. -/
theorem request_descriptor_sent (env : Env) (s : State) (d : bcm_fb_desc_t)
    (hs : s.vc_framebuffer = 0) (ha : 0 ≤ env.iotxn_alloc txnsize) (hwf : d.WF)
    (hz : d.pitch = 0 ∧ d.fb_p = 0 ∧ d.fb_size = 0) :
    Event.set_framebuffer (desc_paddr env.iotxn_phys) (request_buffer env d) ∈
      (bcm_vc_get_framebuffer env s d).trace ∧
    count_set_framebuffer (bcm_vc_get_framebuffer env s d).trace = 1 ∧
    (∀ a b, Event.set_framebuffer a b ∈ (bcm_vc_get_framebuffer env s d).trace →
      a = desc_paddr env.iotxn_phys ∧ b.length = txnsize ∧
      iotxn_copyfrom b sizeof_bcm_fb_desc_t (align_offset env.iotxn_phys)
        = desc_bytes d ∧
      desc_of_bytes (iotxn_copyfrom b sizeof_bcm_fb_desc_t (align_offset env.iotxn_phys))
        = { phys_width := d.phys_width, phys_height := d.phys_height,
            virt_width := d.virt_width, virt_height := d.virt_height, pitch := 0,
            depth := d.depth, virt_x_offs := d.virt_x_offs,
            virt_y_offs := d.virt_y_offs, fb_p := 0, fb_size := 0 }) ∧
    (env.calloc_ok = true → env.device_op_get_protocol = 0 →
      Event.set_framebuffer (desc_paddr env.iotxn_phys)
          (request_buffer env bind_descriptor) ∈ (bcm_display_bind env s).2.2 ∧
      desc_of_bytes (iotxn_copyfrom (request_buffer env bind_descriptor)
          sizeof_bcm_fb_desc_t (align_offset env.iotxn_phys))
        = { phys_width := 800, phys_height := 480, virt_width := 800,
            virt_height := 480, pitch := 0, depth := 32, virt_x_offs := 0,
            virt_y_offs := 0, fb_p := 0, fb_size := 0 }) := by
  have hmem : ∀ d0 : bcm_fb_desc_t,
      Event.set_framebuffer (desc_paddr env.iotxn_phys) (request_buffer env d0) ∈
        (bcm_vc_get_framebuffer env s d0).trace ∧
      count_set_framebuffer (bcm_vc_get_framebuffer env s d0).trace = 1 := by
    intro d0
    by_cases ht : (transport_result env d0).1 = NO_ERROR
    · rw [get_framebuffer_success env s d0 hs ⟨ha, ht⟩]
      simp [exchange_calls, count_set_framebuffer]
    · rw [get_framebuffer_transport_failed env s d0 hs ha ht]
      simp [exchange_calls, count_set_framebuffer]
  refine ⟨(hmem d).1, (hmem d).2, ?_, ?_⟩
  · intro a b h
    obtain ⟨h1, h2⟩ := transport_calls_of_trace env s d a b h
    subst h1 h2
    refine ⟨rfl, request_buffer_length env d, request_buffer_holds env d, ?_⟩
    rw [request_buffer_holds env d, desc_of_bytes_desc_bytes d hwf]
    obtain ⟨z1, z2, z3⟩ := hz
    cases d
    simp_all
  · intro hc hp
    obtain ⟨rest, hr⟩ := bind_trace env s hc hp
    refine ⟨?_, ?_⟩
    · rw [hr]
      simp [(hmem bind_descriptor).1]
    · rw [request_buffer_holds env bind_descriptor,
        desc_of_bytes_desc_bytes bind_descriptor bind_descriptor_WF]
      rfl

/-- Witness for C6: the attach-time request on the scenario environment. -/
theorem request_descriptor_sent_witness :
    Event.set_framebuffer 0x1010 (request_buffer rpi_env bind_descriptor) ∈
      (bcm_vc_get_framebuffer rpi_env init_state bind_descriptor).trace ∧
    count_set_framebuffer
      (bcm_vc_get_framebuffer rpi_env init_state bind_descriptor).trace = 1 :=
  have h := request_descriptor_sent rpi_env init_state bind_descriptor rfl (by decide)
    (by decide) (by decide)
  ⟨h.1, h.2.1⟩

/-! ## Order of the effects (C7) -/

/-- C7: on a first acquisition whose allocation succeeds, the calls made are, in
this order: allocation and physical mapping of the transaction buffer, copy of
the request into it at the alignment offset, cache clean over `[0, txnsize)`
(the whole buffer), transport call; if the transport fails nothing follows; if
it succeeds there follow the cache invalidate over `[0, txnsize)`, the copy of
the descriptor back out, the mapping syscall, the `memset` and the release. -/
theorem exchange_effects_ordered (env : Env) (s : State) (d : bcm_fb_desc_t)
    (hs : s.vc_framebuffer = 0) (ha : 0 ≤ env.iotxn_alloc txnsize) :
    (request_buffer env d).length = txnsize ∧
    ((transport_result env d).1 ≠ NO_ERROR →
      (bcm_vc_get_framebuffer env s d).trace =
        [Event.iotxn_alloc txnsize, Event.iotxn_physmap,
         Event.iotxn_copyto d sizeof_bcm_fb_desc_t (align_offset env.iotxn_phys),
         Event.iotxn_cacheop CacheOp.CLEAN 0 txnsize,
         Event.set_framebuffer (desc_paddr env.iotxn_phys) (request_buffer env d)]) ∧
    ((transport_result env d).1 = NO_ERROR →
      (bcm_vc_get_framebuffer env s d).trace =
        [Event.iotxn_alloc txnsize, Event.iotxn_physmap,
         Event.iotxn_copyto d sizeof_bcm_fb_desc_t (align_offset env.iotxn_phys),
         Event.iotxn_cacheop CacheOp.CLEAN 0 txnsize,
         Event.set_framebuffer (desc_paddr env.iotxn_phys) (request_buffer env d),
         Event.iotxn_cacheop CacheOp.INVALIDATE 0 txnsize,
         Event.iotxn_copyfrom sizeof_bcm_fb_desc_t (align_offset env.iotxn_phys),
         Event.mx_mmap_device_memory ((response env d).fb_p &&& 0x3fffffff)
           (response env d).fb_size mx_cache_policy_t.CACHED,
         Event.memset (page_base env d) 0 (response env d).fb_size,
         Event.iotxn_release]) := by
  refine ⟨request_buffer_length env d, ?_, ?_⟩
  · intro ht
    rw [get_framebuffer_transport_failed env s d hs ha ht]
    rfl
  · intro ht
    rw [get_framebuffer_success env s d hs ⟨ha, ht⟩]
    rfl

/-- Witness for C7: the calls of the scenario, which all succeed. -/
theorem exchange_effects_ordered_witness :
    (bcm_vc_get_framebuffer rpi_env init_state bind_descriptor).trace =
      [Event.iotxn_alloc 56, Event.iotxn_physmap,
       Event.iotxn_copyto bind_descriptor 40 13,
       Event.iotxn_cacheop CacheOp.CLEAN 0 56,
       Event.set_framebuffer 0x1010 (request_buffer rpi_env bind_descriptor),
       Event.iotxn_cacheop CacheOp.INVALIDATE 0 56,
       Event.iotxn_copyfrom 40 13,
       Event.mx_mmap_device_memory 0x3E000000 1536000 mx_cache_policy_t.CACHED,
       Event.memset 0x7000 0 1536000,
       Event.iotxn_release] :=
  have h := exchange_effects_ordered rpi_env init_state bind_descriptor rfl (by decide)
  (h.2.2 (by decide)).trans (by decide)

/-! ## The display protocol (C8, C9, C10) -/

/-- C8: in every driver state `vc_flush_framebuffer` makes exactly one call, a
data-cache flush that starts at the pointer `vc_get_framebuffer` returns and
whose length is `fb_size` of the cached response, and it leaves the state as it
was; after a first acquisition whose exchange succeeds that length is the
`fb_size` the co-processor answered. -/
theorem flush_covers_framebuffer (s : State) (x : Nat) (env : Env) (d : bcm_fb_desc_t) :
    (vc_flush_framebuffer s).2 =
      [Event.mx_cache_flush s.vc_framebuffer s.bcm_vc_framebuffer.fb_size
        mx_cache_flush_t.DATA] ∧
    (vc_flush_framebuffer s).2.length = 1 ∧
    (vc_flush_framebuffer s).1 = s ∧
    vc_get_framebuffer s (some x) = some (NO_ERROR, s.vc_framebuffer) ∧
    (s.vc_framebuffer = 0 → exchange_ok env d →
      (vc_flush_framebuffer (bcm_vc_get_framebuffer env s d).state).2 =
        [Event.mx_cache_flush (page_base env d) (response env d).fb_size
          mx_cache_flush_t.DATA]) := by
  refine ⟨rfl, rfl, rfl, rfl, ?_⟩
  intro hs hx
  rw [get_framebuffer_success env s d hs hx]
  rfl

/-- C9: after an attach that returns `NO_ERROR`, whatever the transport and the
platform answered, `vc_get_mode` returns `NO_ERROR` and the mode
`{ARGB_8888, 800, 480, 800}`, and `vc_set_mode` with any argument returns
`NO_ERROR`, leaves the state unchanged and so leaves the answer of
`vc_get_mode` unchanged. -/
theorem mode_after_attach (env : Env) (s : State) (old arg : mx_display_info_t)
    (h : (bcm_display_bind env s).1 = NO_ERROR) :
    vc_get_mode (bcm_display_bind env s).2.1 (some old) =
      some (NO_ERROR, { format := MX_PIXEL_FORMAT_ARGB_8888, width := 800,
                        height := 480, stride := 800 }) ∧
    (vc_set_mode (bcm_display_bind env s).2.1 arg).1 = NO_ERROR ∧
    (vc_set_mode (bcm_display_bind env s).2.1 arg).2 = (bcm_display_bind env s).2.1 ∧
    vc_get_mode (vc_set_mode (bcm_display_bind env s).2.1 arg).2 (some old) =
      vc_get_mode (bcm_display_bind env s).2.1 (some old) := by
  by_cases hc : env.calloc_ok = true
  · by_cases hp : env.device_op_get_protocol = 0
    · rw [bind_proceeds env s hc hp]
      exact ⟨rfl, rfl, rfl, rfl⟩
    · simp [bcm_display_bind, hc, hp, ERR_NOT_SUPPORTED, NO_ERROR] at h
  · simp [bcm_display_bind, hc, ERR_NO_MEMORY, NO_ERROR] at h

/-- Witness for C9: the scenario response with pitch 3200. -/
theorem mode_after_attach_witness :
    (response rpi_env bind_descriptor).pitch = 3200 ∧
    vc_get_mode (bcm_display_bind rpi_env init_state).2.1 (some ⟨0, 0, 0, 0⟩) =
      some (NO_ERROR, { format := MX_PIXEL_FORMAT_ARGB_8888, width := 800,
                        height := 480, stride := 800 }) :=
  ⟨by decide,
   (mode_after_attach rpi_env init_state ⟨0, 0, 0, 0⟩ ⟨1, 2, 3, 4⟩ (by decide)).1⟩

/-- C10: after a first acquisition in which the exchange succeeds and the
mapping syscall answers `NO_ERROR` with address `p`, the only mapping requested
is the cached mapping of `fb_size` bytes at physical address
`fb_p & 0x3fffffff`, which is `fb_p` modulo `2^30` (bits 30 and 31 cleared, the
low 30 bits kept); `vc_get_framebuffer` returns `p`; and each of the `fb_size`
bytes from `p` on is zero. -/
theorem framebuffer_mapped_and_zeroed (env : Env) (s : State) (d : bcm_fb_desc_t)
    (p x : Nat) (hs : s.vc_framebuffer = 0) (hx : exchange_ok env d)
    (hmap : mapping env d = (NO_ERROR, some p)) :
    Event.mx_mmap_device_memory ((response env d).fb_p % 2 ^ 30) (response env d).fb_size
      mx_cache_policy_t.CACHED ∈ (bcm_vc_get_framebuffer env s d).trace ∧
    (∀ pa len pol, Event.mx_mmap_device_memory pa len pol ∈
        (bcm_vc_get_framebuffer env s d).trace →
      pa = (response env d).fb_p &&& 0x3fffffff ∧ pa = (response env d).fb_p % 2 ^ 30 ∧
      pa < 2 ^ 30 ∧ pa % 2 ^ 30 = (response env d).fb_p % 2 ^ 30 ∧
      len = (response env d).fb_size ∧ pol = mx_cache_policy_t.CACHED) ∧
    (bcm_vc_get_framebuffer env s d).state.bcm_vc_framebuffer = response env d ∧
    vc_get_framebuffer (bcm_vc_get_framebuffer env s d).state (some x)
      = some (NO_ERROR, p) ∧
    ∀ i, i < (response env d).fb_size →
      (bcm_vc_get_framebuffer env s d).state.mem (p + i) = 0 := by
  have hpb : page_base env d = p := by simp [page_base, hmap]
  have hm := land_alias_mask (response env d).fb_p
  have hlt : (response env d).fb_p % 2 ^ 30 < 2 ^ 30 := Nat.mod_lt _ (by norm_num)
  rw [get_framebuffer_success env s d hs hx]
  rw [hpb]
  refine ⟨?_, ?_, rfl, rfl, ?_⟩
  · simp [exchange_calls, hm]
  · intro pa len pol h
    simp only [exchange_calls, List.cons_append, List.nil_append, List.mem_cons,
      Event.mx_mmap_device_memory.injEq, List.mem_nil_iff, or_false, false_or,
      reduceCtorEq] at h
    obtain ⟨h1, h2, h3⟩ := h
    refine ⟨h1, h1.trans hm, ?_, ?_, h2, h3⟩
    · rw [h1, hm]; exact hlt
    · rw [h1, hm, Nat.mod_mod]
  · intro i hi
    simp only [memset]
    rw [if_pos ⟨Nat.le_add_right p i, by omega⟩]

/-- Witness for C10: base `0x3E000000`, size 1536000, mapped at `0x7000`. -/
theorem framebuffer_mapped_and_zeroed_witness :
    Event.mx_mmap_device_memory 0x3E000000 1536000 mx_cache_policy_t.CACHED ∈
      (bcm_vc_get_framebuffer rpi_env init_state bind_descriptor).trace ∧
    (bcm_vc_get_framebuffer rpi_env init_state bind_descriptor).state.mem
      (0x7000 + 1535999) = 0 :=
  have h := framebuffer_mapped_and_zeroed rpi_env init_state bind_descriptor 0x7000 0
    rfl (by decide) rfl
  ⟨h.1, h.2.2.2.2 1535999 (by decide)⟩

end BcmDisplay
